import Mathlib

/-!
Verification of the `urler` URL model.

Shallow embedding of `src/urler/url.py` (the self-contained implementation the
spec was written from) together with the parts of the Python `urllib.parse`
standard library that the code calls: `urlparse`/`urlsplit`, `parse_qs`,
`urlencode` with an identity `quote_via`, `unquote`, `urljoin(base, ".")` and
`urlunparse`/`urlunsplit`.  The package declares Python 3.4/3.5 and needs
3.5–3.9 to run at all (`urlencode(..., quote_via=...)` and the segment-merging
`urljoin` exist from 3.5; `from collections import Iterable` dies on 3.10, and
`parse_qs` splits on both `&` and `;` until the 3.9.2-era security patches).
Where those minor versions differ — the bare-port special case in scheme
recognition (removed in 3.6) and an out-of-range port yielding `None` in 3.5
but `ValueError` from 3.6 — the claims at issue are unaffected; the model
follows 3.5 scheme recognition and 3.6 port validation.

Strings are modelled as Lean `String`/`List Char` (Python strings are sequences
of code points, as are Lean strings).  Python exceptions are modelled with
`Except`.  The IDNA transcoder used by `punycode`/`unpunycode` is an external
collaborator per the spec and is modelled as a total abstract transcoding.
-/

namespace Urler

/-- Python exception kinds raised by the modelled code paths:
`TypeError` (punycode on a relative URL), `ValueError` (invalid port or IPv6
netloc during parsing), `KeyError` (absent key in `_Params.get`). -/
inductive PyErr where
  | typeError
  | valueError
  | keyError
deriving Repr, DecidableEq

/-! ## Character-level helpers -/

/-- Hex digit test, matching the regex class `[a-fA-F0-9]`. -/
def isHexDigit (c : Char) : Bool :=
  (c ≥ '0' && c ≤ '9') || (c ≥ 'a' && c ≤ 'f') || (c ≥ 'A' && c ≤ 'F')

/-- Numeric value of a hex digit. -/
def hexVal (c : Char) : Nat :=
  if c ≥ '0' && c ≤ '9' then c.toNat - 48
  else if c ≥ 'a' && c ≤ 'f' then c.toNat - 87
  else if c ≥ 'A' && c ≤ 'F' then c.toNat - 55
  else 0

/-- Uppercase hex digit for a value below 16. -/
def hexDigitUpper (n : Nat) : Char :=
  if n < 10 then Char.ofNat (48 + n) else Char.ofNat (55 + n)

/-- Accumulator worker for `hexUpperCore`; the fuel (structurally decreasing)
always suffices since `n / 16 < n` for `n ≥ 16`. -/
def hexUpperGo : Nat → Nat → List Char → List Char
  | 0, n, acc => hexDigitUpper (n % 16) :: acc
  | fuel + 1, n, acc =>
    if n < 16 then hexDigitUpper n :: acc
    else hexUpperGo fuel (n / 16) (hexDigitUpper (n % 16) :: acc)

/-- Uppercase hex digits of `n` (no padding), most significant first. -/
def hexUpperCore (n : Nat) : List Char := hexUpperGo n n []

/-- Python `"%{:02X}".format(n)`: uppercase hex, left-padded with `0` to at
least two digits (three or four digits for code points above `0xFF`). -/
def hexUpperPad2 (n : Nat) : List Char :=
  let ds := hexUpperCore n
  if ds.length = 1 then '0' :: ds else ds

/-- ASCII lowering, as applied by `urlsplit` to scheme and hostname.
The Python `str.lower` is Unicode-aware; the URLs and claims at issue only
exercise the ASCII range, which this models exactly. -/
def asciiLower (cs : List Char) : List Char := cs.map Char.toLower

/-! ## Python `str` primitives on `List Char` -/

/-- Python `s.split(sep)` for a one-character separator: keeps empty pieces,
`"".split(sep)` gives one empty piece. -/
def splitOnChar (sep : Char) : List Char → List (List Char)
  | [] => [[]]
  | c :: cs =>
    let r := splitOnChar sep cs
    if c = sep then [] :: r
    else
      match r with
      | [] => [[c]]
      | h :: t => (c :: h) :: t

/-- Python `s.split(sep, 1)`: split at the first occurrence only. -/
def splitOnceChar (sep : Char) : List Char → Option (List Char × List Char)
  | [] => none
  | c :: cs =>
    if c = sep then some ([], cs)
    else
      match splitOnceChar sep cs with
      | none => none
      | some (a, b) => some (c :: a, b)

/-- Python `s.find(c)`: index of the first occurrence, `none` for -1. -/
def findChar (sep : Char) : List Char → Option Nat
  | [] => none
  | c :: cs =>
    if c = sep then some 0
    else (findChar sep cs).map (· + 1)

/-- Python `s.rpartition(sep)` for a one-character separator:
`(before, found, after)` splitting at the last occurrence;
when absent, `before` is empty and `after` is the whole string. -/
def rpartitionChar (sep : Char) (cs : List Char) : List Char × Bool × List Char :=
  match splitOnceChar sep cs.reverse with
  | none => ([], false, cs)
  | some (a, b) => (b.reverse, true, a.reverse)

/-- Python `s.partition(sep)` for a one-character separator. -/
def partitionChar (sep : Char) (cs : List Char) : List Char × Bool × List Char :=
  match splitOnceChar sep cs with
  | none => (cs, false, [])
  | some (a, b) => (a, true, b)

/-- Python `s.rstrip(c)` for a single strip character. -/
def rstripChar (strip : Char) (cs : List Char) : List Char :=
  (cs.reverse.dropWhile (· = strip)).reverse

/-- Python `s.lstrip(c)` for a single strip character. -/
def lstripChar (strip : Char) (cs : List Char) : List Char :=
  cs.dropWhile (· = strip)

/-- Python `s.replace(old, new)` for one-character arguments. -/
def replaceChar (old new : Char) (cs : List Char) : List Char :=
  cs.map fun c => if c = old then new else c

/-- Join pieces with a one-character separator (inverse of `splitOnChar`). -/
def joinWithChar (sep : Char) : List (List Char) → List Char
  | [] => []
  | [p] => p
  | p :: ps => p ++ sep :: joinWithChar sep ps

/-! ## UTF-8 decoding with replacement (`bytes.decode("utf-8", "replace")`) -/

/-- Continuation-byte test `0x80 ≤ b ≤ 0xBF`. -/
def isCont (b : Nat) : Bool := 0x80 ≤ b && b ≤ 0xBF

/-- The Unicode replacement character U+FFFD. -/
def replChar : Char := Char.ofNat 0xFFFD

/-- UTF-8 decoding with `errors="replace"`: each maximal invalid subpart
becomes one U+FFFD, as in the CPython decoder. -/
def utf8DecodeReplace : List Nat → List Char
  | [] => []
  | b :: rest =>
    if b < 0x80 then Char.ofNat b :: utf8DecodeReplace rest
    else if 0xC2 ≤ b && b ≤ 0xDF then
      match rest with
      | b2 :: rest2 =>
        if isCont b2 then
          Char.ofNat ((b - 0xC0) * 64 + (b2 - 0x80)) :: utf8DecodeReplace rest2
        else replChar :: utf8DecodeReplace (b2 :: rest2)
      | [] => [replChar]
    else if 0xE0 ≤ b && b ≤ 0xEF then
      match rest with
      | b2 :: rest2 =>
        let firstContOk :=
          if b = 0xE0 then 0xA0 ≤ b2 && b2 ≤ 0xBF
          else if b = 0xED then 0x80 ≤ b2 && b2 ≤ 0x9F
          else isCont b2
        if firstContOk then
          match rest2 with
          | b3 :: rest3 =>
            if isCont b3 then
              Char.ofNat ((b - 0xE0) * 4096 + (b2 - 0x80) * 64 + (b3 - 0x80)) ::
                utf8DecodeReplace rest3
            else replChar :: utf8DecodeReplace (b3 :: rest3)
          | [] => [replChar]
        else replChar :: utf8DecodeReplace (b2 :: rest2)
      | [] => [replChar]
    else if 0xF0 ≤ b && b ≤ 0xF4 then
      match rest with
      | b2 :: rest2 =>
        let firstContOk :=
          if b = 0xF0 then 0x90 ≤ b2 && b2 ≤ 0xBF
          else if b = 0xF4 then 0x80 ≤ b2 && b2 ≤ 0x8F
          else isCont b2
        if firstContOk then
          match rest2 with
          | b3 :: rest3 =>
            if isCont b3 then
              match rest3 with
              | b4 :: rest4 =>
                if isCont b4 then
                  Char.ofNat ((b - 0xF0) * 262144 + (b2 - 0x80) * 4096 +
                      (b3 - 0x80) * 64 + (b4 - 0x80)) :: utf8DecodeReplace rest4
                else replChar :: utf8DecodeReplace (b4 :: rest4)
              | [] => [replChar]
            else replChar :: utf8DecodeReplace (b3 :: rest3)
          | [] => [replChar]
        else replChar :: utf8DecodeReplace (b2 :: rest2)
      | [] => [replChar]
    else replChar :: utf8DecodeReplace rest

/-! ## `urllib.parse.unquote` -/

/-- Worker for `unquote`: `pending` holds the bytes of the current maximal run
of `%HH` triplets (in reverse); a run is decoded as one UTF-8 chunk with
replacement, exactly as `unquote_to_bytes` + `decode("utf-8", "replace")`. -/
def unquoteAux : List Char → List Nat → List Char
  | [], pending => utf8DecodeReplace pending.reverse
  | '%' :: a :: b :: rest, pending =>
    if isHexDigit a && isHexDigit b then
      unquoteAux rest (((hexVal a) * 16 + hexVal b) :: pending)
    else
      utf8DecodeReplace pending.reverse ++ '%' :: unquoteAux (a :: b :: rest) []
  | c :: rest, pending =>
    utf8DecodeReplace pending.reverse ++ c :: unquoteAux rest []

/-- Python `urllib.parse.unquote(s)` with the default
`encoding="utf-8", errors="replace"`. -/
def pyUnquote (cs : List Char) : List Char := unquoteAux cs []

/-! ## `urllib.parse.parse_qs` / `urlencode` and the `_Params` multimap -/

/-- One pair of `parse_qsl` (default `keep_blank_values=False`,
`strict_parsing=False`): skip empty fields and fields without `=` or with an
empty value; `+` becomes a space and both name and value are unquoted. -/
def parseQslPair (field : List Char) : Option (String × String) :=
  if field = [] then none
  else
    match splitOnceChar '=' field with
    | none => none
    | some (name, value) =>
      if value = [] then none
      else
        some (String.mk (pyUnquote (replaceChar '+' ' ' name)),
              String.mk (pyUnquote (replaceChar '+' ' ' value)))

/-- Python 3.5–3.9 `urllib.parse.parse_qsl(qs)`: fields are split on both `&`
and `;` (the pre-2021 default separators). -/
def parse_qsl (qs : String) : List (String × String) :=
  ((splitOnChar '&' qs.data).flatMap (splitOnChar ';')).filterMap parseQslPair

/-- Python `parse_qs(qs)` grouping, processing pairs left to right: append the
value to the list of an existing key, else add the key at the end (dict insertion
order, wrapped in an `OrderedDict` by `_Params.__init__`). -/
def parse_qs (qs : String) : List (String × List String) :=
  (parse_qsl qs).foldl
    (fun acc (kv : String × String) =>
      if (acc.map Prod.fst).contains kv.1 then
        acc.map fun e => if e.1 = kv.1 then (e.1, e.2 ++ [kv.2]) else e
      else acc ++ [(kv.1, [kv.2])])
    []

/-- The `_Params` ordered multimap of `url.py`: an insertion-ordered mapping
from key to a list of values, always built through `parse_qs` (dict keys are
unique). -/
structure Params where
  pairs : List (String × List String)
deriving Repr, DecidableEq

/-- `_Params.__init__(params)`. -/
def Params.ofString (qs : String) : Params := ⟨parse_qs qs⟩

/-- Python `urlencode(self._params, doseq=True, quote_via=lambda a, *_: a)`:
`key=value` fields joined with `&`, one field per value, nothing quoted. -/
def Params.to_str (p : Params) : String :=
  String.mk (joinWithChar '&'
    (p.pairs.flatMap fun e => e.2.map fun v => e.1.data ++ '=' :: v.data))

/-- Python string `<`: lexicographic comparison by code point. -/
def strLt : List Char → List Char → Bool
  | [], [] => false
  | [], _ :: _ => true
  | _ :: _, [] => false
  | a :: as, b :: bs =>
    if a.toNat < b.toNat then true
    else if b.toNat < a.toNat then false
    else strLt as bs

/-- Stable insertion into a list sorted by key (Python string order is
code-point lexicographic). -/
def insertByKey (x : String × List String) :
    List (String × List String) → List (String × List String)
  | [] => [x]
  | y :: ys => if strLt x.1.data y.1.data then x :: y :: ys else y :: insertByKey x ys

/-- `_Params.sort()` with the default `key=None`: `sorted` over the
`(key, values)` items; keys are unique so the comparison is decided by the
key alone. -/
def Params.sortByKey (p : Params) : Params :=
  ⟨p.pairs.foldr insertByKey []⟩

/-- `_Params.__copy__`: re-parse the serialized form. -/
def Params.copy (p : Params) : Params := Params.ofString p.to_str

/-- `_Params.__eq__` between two `_Params` values: copy both (which serializes
and re-parses them), sort both, then compare serialized strings. -/
def Params.eqP (p q : Params) : Bool :=
  p.copy.sortByKey.to_str == q.copy.sortByKey.to_str

/-- `_Params.get(name)`, i.e. `self._params[name]`: the value list of a present
key, a `KeyError` otherwise. -/
def Params.get (p : Params) (name : String) : Except PyErr (List String) :=
  match p.pairs.find? (fun e => e.1 == name) with
  | some e => .ok e.2
  | none => .error .keyError

/-- `Params.__getitem__` of the `params.py` rewrite:
`tuple(self._params.get(name, ()))` — empty sequence when the key is absent. -/
def Params.getitem (p : Params) (name : String) : List String :=
  match p.pairs.find? (fun e => e.1 == name) with
  | some e => e.2
  | none => []

/-! ## `urllib.parse.urlsplit` / `urlparse` (Python 3.5–3.9 era) -/

/-- `scheme_chars` of `urllib.parse`. -/
def isSchemeChar (c : Char) : Bool :=
  (c ≥ 'a' && c ≤ 'z') || (c ≥ 'A' && c ≤ 'Z') || (c ≥ '0' && c ≤ '9') ||
  c = '+' || c = '-' || c = '.'

/-- Scheme recognition of `urlsplit`: a `:` at a positive index preceded only
by scheme characters.  The exact string `http` is special-cased; otherwise the
part after the colon must not look like a bare port number (all digits) for the
prefix to count as a scheme. -/
def splitScheme (cs : List Char) : String × List Char :=
  match findChar ':' cs with
  | none => ("", cs)
  | some i =>
    if i > 0 then
      let pre := cs.take i
      let rest := cs.drop (i + 1)
      if pre = "http".data then ("http", rest)
      else if pre.all isSchemeChar then
        if rest = [] || rest.any (fun c => !(c ≥ '0' && c ≤ '9')) then
          (String.mk (asciiLower pre), rest)
        else ("", cs)
      else ("", cs)
    else ("", cs)

/-- `_splitnetloc(url, 2)`: the netloc runs to the first of `/?#`. -/
def splitNetloc (cs : List Char) : List Char × List Char :=
  (cs.takeWhile (fun c => c ≠ '/' && c ≠ '?' && c ≠ '#'),
   cs.dropWhile (fun c => c ≠ '/' && c ≠ '?' && c ≠ '#'))

/-- The five components of `urlsplit`. -/
structure SplitResult where
  scheme : String
  netloc : String
  path : String
  query : String
  fragment : String
deriving Repr, DecidableEq

/-- Python `urlsplit(url)` (default empty scheme, `allow_fragments=True`):
scheme, then netloc behind `//` (with the IPv6 bracket sanity check), then the
fragment after the first `#`, then the query after the first `?`. -/
def pyUrlsplit (url : String) : Except PyErr SplitResult := do
  let (scheme, rest) := splitScheme url.data
  let (netloc, rest) :=
    if rest.take 2 = ['/', '/'] then splitNetloc (rest.drop 2) else ([], rest)
  if (netloc.contains '[' && !netloc.contains ']') ||
      (netloc.contains ']' && !netloc.contains '[') then
    throw .valueError
  let (rest, fragment) :=
    match splitOnceChar '#' rest with
    | some (a, b) => (a, b)
    | none => (rest, [])
  let (path, query) :=
    match splitOnceChar '?' rest with
    | some (a, b) => (a, b)
    | none => (rest, [])
  return ⟨scheme, String.mk netloc, String.mk path, String.mk query,
          String.mk fragment⟩

/-- `_splitparams(url)`: split params off the last path segment (only called
when `;` occurs in the path). -/
def splitparams (path : List Char) : List Char × List Char :=
  if path.contains '/' then
    let j := path.length - 1 - (findChar '/' path.reverse).getD 0
    match findChar ';' (path.drop j) with
    | some k => (path.take (j + k), path.drop (j + k + 1))
    | none => (path, [])
  else
    match findChar ';' path with
    | some i => (path.take i, path.drop (i + 1))
    | none => (path, [])

/-- The six components of `urlparse`. -/
structure ParseResult where
  scheme : String
  netloc : String
  path : String
  paramsStr : String
  query : String
  fragment : String
deriving Repr, DecidableEq

/-- Python `urlparse(url)`: `urlsplit` plus the params split. -/
def pyUrlparse (url : String) : Except PyErr ParseResult := do
  let s ← pyUrlsplit url
  if s.path.data.contains ';' then
    let (p, ps) := splitparams s.path.data
    return ⟨s.scheme, s.netloc, String.mk p, String.mk ps, s.query, s.fragment⟩
  else
    return ⟨s.scheme, s.netloc, s.path, "", s.query, s.fragment⟩

/-- `SplitResult._userinfo`: username and password from the part of the netloc
before the last `@` (`None` modelled as `none`). -/
def netlocUserinfo (netloc : List Char) : Option String × Option String :=
  let (userinfo, haveInfo, _) := rpartitionChar '@' netloc
  if haveInfo then
    let (username, havePassword, password) := partitionChar ':' userinfo
    (some (String.mk username),
     if havePassword then some (String.mk password) else none)
  else (none, none)

/-- `SplitResult._hostinfo`: hostname and port from the part of the netloc
after the last `@`, honouring `[...]` bracketing. -/
def netlocHostinfo (netloc : List Char) : List Char × Option (List Char) :=
  let (_, _, hostinfo) := rpartitionChar '@' netloc
  let (_, haveOpenBr, bracketed) := partitionChar '[' hostinfo
  if haveOpenBr then
    let (hostname, _, portPart) := partitionChar ']' bracketed
    let (_, _, port) := partitionChar ':' portPart
    (hostname, if port = [] then none else some port)
  else
    let (hostname, _, port) := partitionChar ':' hostinfo
    (hostname, if port = [] then none else some port)

/-- `SplitResult.port`: `int(port, 10)` validated to the range 0–65535.
The Python `int` also tolerates surrounding whitespace, a sign and underscores;
the URLs at issue only use plain digit strings, which this models exactly. -/
def parsePort (port : List Char) : Except PyErr Nat := do
  if port = [] || port.any (fun c => !(c ≥ '0' && c ≤ '9')) then
    throw .valueError
  let n := port.foldl (fun acc c => acc * 10 + (c.toNat - 48)) 0
  if n > 65535 then throw .valueError
  return n

/-! ## The `URL` class -/

/-- `DEFAULT_PORTS` of `url.py`. -/
def DEFAULT_PORTS : List (String × String) :=
  [("ftp", "21"), ("ssh", "22"), ("http", "80"), ("https", "443")]

/-- The state of a `URL` instance (`__slots__` of `url.py`).
`_inferred_port` distinguishes Python `None` (`none`) from the empty string (`some ""`). -/
structure URL where
  scheme : String
  username : String
  password : String
  host : String
  port : String
  _inferred_port : Option String
  path : String
  params : Params
  query : Params
  fragment : String
deriving Repr, DecidableEq

/-- The construction-time inference
`self.port or self.scheme and DEFAULT_PORTS.get(self.scheme)`:
the explicit port when truthy, else the empty string for an empty scheme, else the default
table lookup (`None` when the scheme has no default). -/
def inferPort (scheme port : String) : Option String :=
  if port ≠ "" then some port
  else if scheme = "" then some ""
  else
    match DEFAULT_PORTS.find? (fun e => e.1 == scheme) with
    | some e => some e.2
    | none => none

/-- `URL.__init__(url)` (without keyword overrides): tokenize with `urlparse`,
then read off the components.  `parsed.port` raises `ValueError` for a
non-numeric or out-of-range port; a port of `0` is falsy and becomes the empty string;
the hostname is lowercased. -/
def parseURL (url : String) : Except PyErr URL := do
  let parsed ← pyUrlparse url
  let hostinfo := netlocHostinfo parsed.netloc.data
  let port ← match hostinfo.2 with
    | none => pure ""
    | some p => do
      let n ← parsePort p
      pure (if n = 0 then "" else toString n)
  let userinfo := netlocUserinfo parsed.netloc.data
  return {
    scheme := parsed.scheme
    username := userinfo.1.getD ""
    password := userinfo.2.getD ""
    host := String.mk (asciiLower hostinfo.1)
    port := port
    _inferred_port := inferPort parsed.scheme port
    path := parsed.path
    params := Params.ofString parsed.paramsStr
    query := Params.ofString parsed.query
    fragment := parsed.fragment }

/-- Python `urlunsplit((scheme, netloc, url, query, fragment))`. -/
def pyUrlunsplit (scheme netloc url query fragment : String) : String :=
  let u :=
    if netloc ≠ "" || url.data.take 2 = ['/', '/'] then
      let u' := if url ≠ "" && url.data.take 1 ≠ ['/'] then "/" ++ url else url
      "//" ++ netloc ++ u'
    else url
  let u := if scheme ≠ "" then scheme ++ ":" ++ u else u
  let u := if query ≠ "" then u ++ "?" ++ query else u
  if fragment ≠ "" then u ++ "#" ++ fragment else u

/-- Python `urlunparse`: append `;params` to the path, then `urlunsplit`. -/
def pyUrlunparse (scheme netloc url params query fragment : String) : String :=
  let u := if params ≠ "" then url ++ ";" ++ params else url
  pyUrlunsplit scheme netloc u query fragment

/-- `URL.to_str()`: assemble the netloc from userinfo, host and port, render
the params with `;` in place of `&`, and compose with `urlunparse`. -/
def URL.to_str (u : URL) : String :=
  let netloc := if u.username ≠ "" then u.username else ""
  let netloc := if u.password ≠ "" then netloc ++ ":" ++ u.password else netloc
  let netloc :=
    if u.host ≠ "" then netloc ++ (if netloc ≠ "" then "@" else "") ++ u.host
    else netloc
  let netloc := if u.port ≠ "" then netloc ++ ":" ++ u.port else netloc
  let query := u.query.to_str
  let params := String.mk (replaceChar '&' ';' u.params.to_str.data)
  pyUrlunparse u.scheme netloc u.path params query u.fragment

/-! ## `urllib.parse.urljoin(base, ".")` and `URL.abspath` -/

/-- `uses_relative` of `urllib.parse`. -/
def uses_relative : List String :=
  ["", "ftp", "http", "gopher", "nntp", "imap", "wais", "file", "https",
   "shttp", "mms", "prospero", "rtsp", "rtspu", "sftp", "svn", "svn+ssh",
   "ws", "wss"]

/-- `uses_netloc` of `urllib.parse`. -/
def uses_netloc : List String :=
  ["", "ftp", "http", "gopher", "nntp", "telnet", "imap", "wais", "file",
   "mms", "https", "shttp", "snews", "prospero", "rtsp", "rtspu", "rsync",
   "svn", "svn+ssh", "sftp", "nfs", "git", "git+ssh", "ws", "wss"]

/-- The segment-resolution loop of `urljoin`: `..` pops (ignoring an empty
stack), `.` is dropped, anything else is pushed. -/
def resolveSegs : List (List Char) → List (List Char) → List (List Char)
  | [], acc => acc.reverse
  | s :: rest, acc =>
    if s = ['.'] then resolveSegs rest acc
    else if s = ['.', '.'] then resolveSegs rest acc.tail
    else resolveSegs rest (s :: acc)

/-- Python `urljoin(base, ".")` (as called by `abspath`): split the base; a
scheme outside `uses_relative` returns `.` unchanged; otherwise resolve the
segments of the base directory against `.`, filtering empty interior segments, and
reassemble with the scheme and netloc of the base (the reference contributes no
query or fragment). -/
def urljoinDot (base : String) : Except PyErr String := do
  if base = "" then return "."
  let b ← pyUrlsplit base
  if !uses_relative.contains b.scheme then return "."
  let netloc := if uses_netloc.contains b.scheme then b.netloc else ""
  let baseParts := splitOnChar '/' b.path.data
  let baseParts :=
    if baseParts.getLast? = some [] then baseParts else baseParts.dropLast
  let segments := baseParts ++ [['.']]
  let segments :=
    match segments with
    | [] => []
    | s0 :: rest =>
      s0 :: ((rest.dropLast.filter (· ≠ [])) ++ rest.getLast?.toList)
  let resolved := resolveSegs segments []
  let resolved :=
    if segments.getLast? = some ['.'] || segments.getLast? = some ['.', '.'] then
      resolved ++ [[]]
    else resolved
  let rp := joinWithChar '/' resolved
  let rp := if rp = [] then "/" else String.mk rp
  return pyUrlunsplit b.scheme netloc rp "" ""

/-- `URL.abspath` / `Path.abspath` on the path string: resolve the own
directory of the path against `.`; when the original path did not end in `/`, a `/` is
appended first and all trailing slashes are stripped afterwards. -/
def absPathStr (p : String) : Except PyErr String := do
  if p.data.getLast? ≠ some '/' then
    let j ← urljoinDot (p ++ "/")
    return String.mk (rstripChar '/' j.data)
  else
    urljoinDot p

/-! ## `URL.percent_encode` and the RFC 3986 character classes -/

/-- `GEN_DELIMS` of `url.py`. -/
def GEN_DELIMS : List Char := [':', '/', '?', '#', '[', ']', '@']

/-- `SUB_DELIMS` of `url.py`. -/
def SUB_DELIMS : List Char :=
  ['!', '$', '&', '\'', '(', ')', '*', '+', ',', ';', '=']

/-- `ALPHA` of `url.py`. -/
def ALPHA : List Char :=
  "ABCDEFGHIJKLMNOPQRSTUVWXYZabcdefghijklmnopqrstuvwxyz".data

/-- `DIGIT` of `url.py`. -/
def DIGIT : List Char := "0123456789".data

/-- `UNRESERVED` of `url.py`. -/
def UNRESERVED : List Char := ALPHA ++ DIGIT ++ ['-', '.', '_', '~']

/-- `RESERVED` of `url.py`. -/
def RESERVED : List Char := GEN_DELIMS ++ SUB_DELIMS

/-- `PCHAR` of `url.py`. -/
def PCHAR : List Char := UNRESERVED ++ SUB_DELIMS ++ [':', '@']

/-- `PATH` of `url.py`. -/
def PATH : List Char := PCHAR ++ ['/']

/-- `QUERY` of `url.py`. -/
def QUERY : List Char := PCHAR ++ ['/', '?']

/-- `USERINFO` of `url.py`. -/
def USERINFO : List Char := UNRESERVED ++ SUB_DELIMS ++ [':']

/-- `URL.percent_encode(raw, safe_chars)`: scan with the regex
`(%([a-fA-F0-9]{2})|.)`.  An escaped triplet whose decoded character is safe
and not reserved is replaced by the literal character, otherwise the triplet is
upper-cased; a plain character is kept if safe, otherwise emitted as `%` plus
the uppercase hex of its code point (`"%{:02X}".format(ord(raw_char))`, which
widens past two digits for code points above `0xFF`). -/
def percent_encode (safe_chars : List Char) : List Char → List Char
  | [] => []
  | '%' :: a :: b :: rest =>
    if isHexDigit a && isHexDigit b then
      let c := Char.ofNat (hexVal a * 16 + hexVal b)
      if safe_chars.contains c && !RESERVED.contains c then
        c :: percent_encode safe_chars rest
      else '%' :: a.toUpper :: b.toUpper :: percent_encode safe_chars rest
    else
      (if safe_chars.contains '%' then ['%'] else '%' :: hexUpperPad2 37) ++
        percent_encode safe_chars (a :: b :: rest)
  | c :: rest =>
    (if safe_chars.contains c then [c] else '%' :: hexUpperPad2 c.toNat) ++
      percent_encode safe_chars rest

/-- String-level wrapper for `URL.percent_encode`. -/
def percentEncode (raw : String) (safe_chars : List Char) : String :=
  String.mk (percent_encode safe_chars raw.data)

/-! ## `URL` mutators and the canonicalizing equality -/

/-- `URL.set_scheme(scheme)`. -/
def URL.set_scheme (u : URL) (scheme : String) : URL := { u with scheme }

/-- `URL.set_port(port)`: also overwrites the inferred port with the explicit
value. -/
def URL.set_port (u : URL) (port : String) : URL :=
  { u with port, _inferred_port := some port }

/-- `URL.remove_port()`: clears both the explicit and the inferred port. -/
def URL.remove_port (u : URL) : URL :=
  { u with port := "", _inferred_port := some "" }

/-- `URL.set_host(host)`. -/
def URL.set_host (u : URL) (host : String) : URL :=
  { u with host := String.mk ((lstripChar '.' (rstripChar '.' host.data))) }

/-- `URL.set_username(name)`. -/
def URL.set_username (u : URL) (name : String) : URL := { u with username := name }

/-- `URL.remove_host()`. -/
def URL.remove_host (u : URL) : URL := { u with host := "" }

/-- `URL.sort_query()` with the default key. -/
def URL.sort_query (u : URL) : URL := { u with query := u.query.sortByKey }

/-- `URL.sort_params()` with the default key. -/
def URL.sort_params (u : URL) : URL := { u with params := u.params.sortByKey }

/-- `URL.remove_frag()`. -/
def URL.remove_frag (u : URL) : URL := { u with fragment := "" }

/-- `URL.add_path(path)`:
`'/'.join((self.path.rstrip('/'), path.lstrip('/')))`. -/
def URL.add_path (u : URL) (p : String) : URL :=
  { u with path :=
      String.mk (rstripChar '/' u.path.data ++ '/' :: lstripChar '/' p.data) }

/-- `URL.abspath()`. -/
def URL.abspath (u : URL) : Except PyErr URL := do
  let p ← absPathStr u.path
  return { u with path := p }

/-- `URL.get_query(name)`: delegates to `_Params.get`. -/
def URL.get_query (u : URL) (name : String) : Except PyErr (List String) :=
  u.query.get name

/-- `URL.escape()`: percent-encode the path, userinfo, query and params with
their safe sets; query and params are re-parsed from their encoded
serializations. -/
def URL.escape (u : URL) : URL :=
  { u with
    path := percentEncode u.path PATH
    username := percentEncode u.username USERINFO
    password := percentEncode u.password USERINFO
    query := Params.ofString (percentEncode u.query.to_str QUERY)
    params := Params.ofString (percentEncode u.params.to_str QUERY) }

/-- Modelled from the spec: the IDNA collaborator (§1, §6) is external to the
repository; `encode` is a total transcoding to the ASCII form.  On the ASCII
hosts the claims exercise, the `idna` codec is the identity, which is how the
collaborator is modelled here (collaborator-internal failures propagate
unchanged per §7 and are out of scope). -/
def idnaEncode (host : String) : String := host

/-- Modelled from the spec: the inverse IDNA transcoding (see `idnaEncode`). -/
def idnaDecode (host : String) : String := host

/-- `URL.punycode()`: a `TypeError` on an empty (relative) host, otherwise the
host is transcoded through the IDNA collaborator. -/
def URL.punycode (u : URL) : Except PyErr URL :=
  if u.host = "" then .error .typeError
  else .ok { u with host := idnaEncode u.host }

/-- `URL.unpunycode()`: a `TypeError` on an empty (relative) host, otherwise
the host is transcoded back through the IDNA collaborator. -/
def URL.unpunycode (u : URL) : Except PyErr URL :=
  if u.host = "" then .error .typeError
  else .ok { u with host := idnaDecode u.host }

/-- `URL.__generalize`: sort query and params, drop the fragment, append `/`
to the path, normalize the path, escape, and punycode the host. -/
def URL.generalize (u : URL) : Except PyErr URL := do
  let u := u.sort_query.sort_params.remove_frag.add_path "/"
  let u ← u.abspath
  u.escape.punycode

/-- The attribute-wise comparison at the end of `URL.__eq__`: `username`,
`password`, `scheme`, `host`, `_inferred_port`, `path`, `params`, `query`,
`fragment`; params and query compare via `_Params.__eq__`. -/
def URL.attrsEqual (a b : URL) : Bool :=
  a.username == b.username && a.password == b.password &&
  a.scheme == b.scheme && a.host == b.host &&
  a._inferred_port == b._inferred_port && a.path == b.path &&
  Params.eqP a.params b.params && Params.eqP a.query b.query &&
  a.fragment == b.fragment

/-- `URL.__eq__(self, other)` for two `URL` instances: both operands are first
copied — `__copy__` serializes with `to_str` and re-parses — then generalized,
then compared attribute-wise.  The copy of `other` is built before the copy of
`self`; `self` is generalized first. -/
def URL.eq (self other : URL) : Except PyErr Bool := do
  let otherCopy ← parseURL other.to_str
  let selfCopy ← parseURL self.to_str
  let s ← selfCopy.generalize
  let o ← otherCopy.generalize
  return URL.attrsEqual s o

/-- The part of `__generalize` before `escape` and `punycode` (the only step
of it that can fail is `abspath`, with a `ValueError` from `urljoin`). -/
def URL.prePipe (u : URL) : Except PyErr URL :=
  (((u.sort_query.sort_params).remove_frag).add_path "/").abspath

/-- The parse of `"/p"`: a relative URL with an empty host and no userinfo. -/
def relPathURL : URL :=
  { scheme := "", username := "", password := "", host := "", port := ""
    _inferred_port := some "", path := "/p", params := ⟨[]⟩, query := ⟨[]⟩
    fragment := "" }

/-- The parse of `"http://u@"`: an empty host alongside a non-empty
username. -/
def userOnlyURL : URL :=
  { scheme := "http", username := "u", password := "", host := "", port := ""
    _inferred_port := some "80", path := "", params := ⟨[]⟩, query := ⟨[]⟩
    fragment := "" }

/-- The parse of `"http://example.com"`. -/
def exampleURL : URL :=
  { scheme := "http", username := "", password := "", host := "example.com"
    port := "", _inferred_port := some "80", path := "", params := ⟨[]⟩
    query := ⟨[]⟩, fragment := "" }

/-! ## Helper lemmas on the canonicalization pipeline -/

theorem escape_host (u : URL) : u.escape.host = u.host := rfl

theorem abspath_host {u v : URL} (h : u.abspath = .ok v) : v.host = u.host := by
  unfold URL.abspath at h
  cases habs : absPathStr u.path with
  | ok p =>
    rw [habs] at h
    have hv : v = { u with path := p } := by
      simpa [Bind.bind, Except.bind, pure, Except.pure] using h.symm
    rw [hv]
  | error e =>
    rw [habs] at h
    simp [Bind.bind, Except.bind] at h

theorem prePipe_host {u v : URL} (h : u.prePipe = .ok v) : v.host = u.host :=
  abspath_host (u := (((u.sort_query.sort_params).remove_frag).add_path "/")) h

theorem generalize_as_prePipe (u : URL) :
    u.generalize = u.prePipe >>= fun w => w.escape.punycode := rfl

/-- `__generalize` raises the relative-host `TypeError` exactly on an empty
host, provided the path-normalization step succeeds. -/
theorem generalize_error_iff {u su : URL} (h : u.prePipe = .ok su) :
    u.generalize = .error .typeError ↔ u.host = "" := by
  rw [generalize_as_prePipe, h]
  show su.escape.punycode = _ ↔ _
  rw [URL.punycode, escape_host, prePipe_host h]
  by_cases hh : u.host = "" <;> simp [hh]

/-- When the host is non-empty (and path normalization succeeds),
`__generalize` returns the canonicalized value. -/
theorem generalize_ok {u su : URL} (h : u.prePipe = .ok su)
    (hh : u.host ≠ "") :
    u.generalize = .ok { su.escape with host := idnaEncode su.escape.host } := by
  rw [generalize_as_prePipe, h]
  show su.escape.punycode = _
  rw [URL.punycode]
  have heh : su.escape.host = u.host := by rw [escape_host, prePipe_host h]
  simp [heh, hh]

/-- Every successfully constructed `URL` satisfies the construction-time
inference rule for `_inferred_port`. -/
theorem parseURL_inferred {s : String} {u : URL} (h : parseURL s = .ok u) :
    u._inferred_port = inferPort u.scheme u.port := by
  unfold parseURL at h
  cases hp : pyUrlparse s with
  | error e => rw [hp] at h; simp [Bind.bind, Except.bind] at h
  | ok parsed =>
    rw [hp] at h
    simp only [Bind.bind, Except.bind] at h
    cases hpo : (netlocHostinfo parsed.netloc.data).2 with
    | none =>
      rw [hpo] at h
      simp only [pure, Except.pure, Except.ok.injEq] at h
      rw [← h]
    | some p =>
      rw [hpo] at h
      dsimp only at h
      cases hpp : parsePort p with
      | error e => rw [hpp] at h; simp [Bind.bind, Except.bind] at h
      | ok n =>
        rw [hpp] at h
        simp only [Bind.bind, Except.bind, pure, Except.pure,
          Except.ok.injEq] at h
        rw [← h]

/-! ## Claim theorems -/

/-- Claim C2: `URL("http://example.com") == URL("http://example.com:80/")`
evaluates to `True`: the left side has no explicit port but infers `80` from
the fixed default table `{ftp: 21, ssh: 22, http: 80, https: 443}`, the right
side carries the explicit port `80`, and equality compares the inferred
(effective) port, which is the explicit port when set and the scheme default
otherwise. -/
theorem c2_default_port_equality :
    ((do
        let l ← parseURL "http://example.com"
        let r ← parseURL "http://example.com:80/"
        URL.eq l r) : Except PyErr Bool) = .ok true ∧
    DEFAULT_PORTS =
      [("ftp", "21"), ("ssh", "22"), ("http", "80"), ("https", "443")] ∧
    inferPort "http" "" = some "80" ∧
    inferPort "https" "" = some "443" ∧
    inferPort "http" "8080" = some "8080" ∧
    (parseURL "http://example.com").map URL.port = .ok "" ∧
    (parseURL "http://example.com:80/").map URL.port = .ok "80" := by
  refine ⟨?_, rfl, rfl, rfl, rfl, ?_, ?_⟩ <;> rfl

/-- Claim C1: The round trip `URL(URL(s).to_str()) == URL(s)` holds for ordinary
URLs (first conjunct) but is falsified at `s = "http://h?a=%25252526"`: the
query value unescapes one level at every serialize/re-parse cycle, and the
copies taken inside `__eq__` leave the two sides one unescaping level apart —
one side canonicalizes to the query `a=&`, whose re-parse drops the
blank-valued pair, while the other still holds `a=%26`, so the comparison
returns `False` where the claim requires `True`. -/
theorem c1_round_trip_failure :
    ((do
        let l ← parseURL "http://example.com/a/b?x=1&y=2#frag"
        let r ← parseURL l.to_str
        URL.eq r l) : Except PyErr Bool) = .ok true ∧
    ((do
        let l ← parseURL "http://h?a=%25252526"
        let r ← parseURL l.to_str
        URL.eq r l) : Except PyErr Bool) = .ok false := by
  refine ⟨?_, ?_⟩ <;> rfl

/-- Claim C3, counterexample: `_Params.__eq__` is *not* just "sort both and
compare serialized strings": the copies it takes first serialize and re-parse
both multimaps.  For `_Params("a=%26")` (value `&`) versus `_Params("")` the
sorted serializations differ (`a=&` vs the empty string), yet equality holds,
because re-parsing `a=&` drops the blank-valued pair. -/
theorem c3_counterexample :
    Params.eqP (Params.ofString "a=%26") (Params.ofString "") = true ∧
    (Params.ofString "a=%26").sortByKey.to_str ≠
      (Params.ofString "").sortByKey.to_str :=
  ⟨rfl, by decide⟩

/-- Claim C3, amended: `_Params.__eq__` copies both multimaps through a
serialize/re-parse cycle, sorts both by natural key order, and compares the
serialized strings; consequently equality is insensitive to the order of
distinct keys (the URL example compares `True`) and sensitive to the order of
multiple values under one key. -/
theorem c3_params_equality :
    (∀ p q : Params,
      Params.eqP p q = (p.copy.sortByKey.to_str == q.copy.sortByKey.to_str)) ∧
    ((do
        let l ← parseURL "http://h?a=1&b=2"
        let r ← parseURL "http://h?b=2&a=1"
        URL.eq l r) : Except PyErr Bool) = .ok true ∧
    Params.eqP (Params.ofString "a=1&a=2") (Params.ofString "a=2&a=1") = false := by
  refine ⟨fun _ _ => rfl, ?_, ?_⟩ <;> rfl

/-- Claim C4, counterexample: `URL("http://example.com").get_query("a")` — an
absent key — raises `KeyError` (`_Params.get` is a bare `self._params[name]`)
instead of returning an empty sequence. -/
theorem c4_counterexample :
    (parseURL "http://example.com").bind (fun u => u.get_query "a") =
      .error .keyError :=
  rfl

/-- Claim C4, amended: `get(key)` returns all stored values of a present key (in
insertion order, as grouped by `parse_qs`), but for an absent key the live
`_Params.get` of `url.py` raises `KeyError`; only the `Params.__getitem__` of the
(unconstructible) `params.py` rewrite returns an empty sequence there. -/
theorem c4_get_behaviour :
    (∀ (p : Params) (k : String),
      (p.get k = .error .keyError ↔ p.pairs.find? (fun e => e.1 == k) = none) ∧
      (∀ e, p.pairs.find? (fun e => e.1 == k) = some e →
        p.get k = .ok e.2 ∧ p.getitem k = e.2) ∧
      (p.pairs.find? (fun e => e.1 == k) = none → p.getitem k = [])) ∧
    (∀ (u : URL) (k : String), u.get_query k = u.query.get k) ∧
    Params.get (Params.ofString "x=1&x=2") "x" = .ok ["1", "2"] ∧
    Params.getitem (Params.ofString "x=1") "a" = [] := by
  refine ⟨?_, fun _ _ => rfl, rfl, rfl⟩
  intro p k
  cases hf : p.pairs.find? (fun e => e.1 == k) with
  | some e => simp [Params.get, Params.getitem, hf]
  | none => simp [Params.get, Params.getitem, hf]

/-- Witness for `c4_get_behaviour` at a concrete multimap and absent key. -/
theorem c4_get_behaviour_witness :
    (Params.ofString "x=1").get "a" = .error .keyError ∧
    (Params.ofString "x=1").getitem "a" = [] :=
  ⟨((c4_get_behaviour.1 (Params.ofString "x=1") "a").1).mpr rfl,
   ((c4_get_behaviour.1 (Params.ofString "x=1") "a").2.2) rfl⟩

/-- Claim C5, counterexample: After `URL("http://example.com").set_scheme("https")`
the explicit port is absent but the inferred port is still `80`, not the
default-table entry `443` of the now-current scheme: `set_scheme` does not
recompute `_inferred_port`. -/
theorem c5_counterexample :
    parseURL "http://example.com" = .ok exampleURL ∧
    (exampleURL.set_scheme "https").port = "" ∧
    (exampleURL.set_scheme "https")._inferred_port = some "80" ∧
    DEFAULT_PORTS.find?
        (fun e => e.1 == (exampleURL.set_scheme "https").scheme) =
      some ("https", "443") ∧
    (some "80" : Option String) ≠ some "443" :=
  ⟨rfl, rfl, rfl, rfl, by decide⟩

/-- Claim C5, amended: The scheme-default inference happens only at
construction (`_inferred_port = port or scheme and DEFAULT_PORTS.get(scheme)`);
afterwards `set_port(p)` overwrites the inferred port with exactly `p`,
`remove_port()` clears it to the empty string, and `set_scheme` leaves it
untouched, so after mutation it need not match the default of the current scheme. -/
theorem c5_inferred_port_updates :
    (∀ (u : URL) (s : String),
      (u.set_scheme s)._inferred_port = u._inferred_port) ∧
    (∀ (u : URL) (p : String), (u.set_port p)._inferred_port = some p) ∧
    (∀ u : URL, u.remove_port._inferred_port = some "") ∧
    (∀ scheme port : String,
      inferPort scheme port =
        if port ≠ "" then some port
        else if scheme = "" then some ""
        else
          match DEFAULT_PORTS.find? (fun e => e.1 == scheme) with
          | some e => some e.2
          | none => none) ∧
    (∀ (s : String) (u : URL), parseURL s = .ok u →
      u._inferred_port = inferPort u.scheme u.port) :=
  ⟨fun _ _ => rfl, fun _ _ => rfl, fun _ => rfl, fun _ _ => rfl,
   fun _ _ h => parseURL_inferred h⟩

/-- Witness for `c5_inferred_port_updates` at the concrete construction
`URL("http://example.com")`. -/
theorem c5_inferred_port_updates_witness :
    exampleURL._inferred_port = inferPort exampleURL.scheme exampleURL.port :=
  c5_inferred_port_updates.2.2.2.2 "http://example.com" exampleURL rfl

/-- Claim C6: Percent-encoding is not idempotent: `encode("А", QUERY)` (the
Cyrillic capital A, code point `0x410`) yields the malformed triplet `%410`,
and re-encoding re-reads `%41` as an escaped `A` — safe and unreserved — so
`encode(encode("А")) = "A0" ≠ "%410" = encode("А")`. -/
theorem c6_encode_not_idempotent :
    percentEncode (percentEncode "a b%3F" QUERY) QUERY =
      percentEncode "a b%3F" QUERY ∧
    percentEncode "А" QUERY = "%410" ∧
    percentEncode (percentEncode "А" QUERY) QUERY = "A0" ∧
    ("A0" : String) ≠ "%410" :=
  ⟨rfl, rfl, rfl, by decide⟩

/-- Claim C7: A character outside the safe set is emitted as `%` plus the
uppercase hex of its *code point*, not byte-by-byte over its UTF-8 encoding:
`encode("м", QUERY)` (code point `0x43C`, UTF-8 bytes `D0 BC`) is the
four-character `%43C` — three hex digits, not two — instead of `%D0%BC`. -/
theorem c7_codepoint_not_bytewise :
    percentEncode "м" QUERY = "%43C" ∧
    (percentEncode "м" QUERY).data.length = 4 ∧
    percentEncode "м" QUERY ≠ "%D0%BC" :=
  ⟨rfl, rfl, by decide⟩

/-- Claim C8: `abspath` normalizes the doctest path as documented, but is not
idempotent: on the relative path `a:b` the underlying `urljoin` mistakes `a`
for a URI scheme outside `uses_relative` and returns `.` unchanged, and a
second application collapses `.` to the empty string. -/
theorem c8_abspath_not_idempotent :
    absPathStr "/a///////b///1/../c/d" = .ok "/a/b/c/d" ∧
    absPathStr "a:b" = .ok "." ∧
    absPathStr "." = .ok "" ∧
    ("." : String) ≠ "" :=
  ⟨rfl, rfl, rfl, by decide⟩

/-- Claim C9: `punycode()` and `unpunycode()` raise the relative-host `TypeError`
iff the host is empty at the time of the call; on a non-empty host they return
the URL with the entire host transcoded through the IDNA collaborator, without
raising. -/
theorem c9_punycode_relative_host :
    ∀ u : URL,
      (u.punycode = .error .typeError ↔ u.host = "") ∧
      (u.unpunycode = .error .typeError ↔ u.host = "") ∧
      (u.host ≠ "" →
        u.punycode = .ok { u with host := idnaEncode u.host } ∧
        u.unpunycode = .ok { u with host := idnaDecode u.host }) := by
  intro u
  by_cases h : u.host = "" <;> simp [URL.punycode, URL.unpunycode, h]

/-- Witness for `c9_punycode_relative_host` at a URL with host
`example.com`. -/
theorem c9_punycode_relative_host_witness :
    URL.punycode exampleURL =
        .ok { exampleURL with host := idnaEncode exampleURL.host } ∧
    URL.unpunycode exampleURL =
        .ok { exampleURL with host := idnaDecode exampleURL.host } :=
  (c9_punycode_relative_host exampleURL).2.2 (by decide)

/-- Claim C10, counterexample: `URL("http://u@")` has an empty host (and username
`u`), yet comparing it to itself does not raise: `__eq__` first copies each
operand through `to_str` + re-parse, and serialization emits the username as
the netloc, which re-parses as a non-empty host. -/
theorem c10_counterexample :
    parseURL "http://u@" = .ok userOnlyURL ∧
    userOnlyURL.host = "" ∧
    URL.eq userOnlyURL userOnlyURL = .ok true :=
  ⟨rfl, rfl, rfl⟩

/-- Claim C10, amended: For operands whose serialized copies re-parse without a
`ValueError` and whose path normalization succeeds, `==` raises the
relative-host `TypeError` exactly when the *re-parsed copy* of either operand
has an empty host — not when the operand itself does (an empty-host operand
with a non-empty username serializes its username into the netloc, which
re-parses as the host). -/
theorem c10_eq_error_iff (u v u' v' su sv : URL)
    (hu : parseURL u.to_str = .ok u') (hv : parseURL v.to_str = .ok v')
    (hpu : u'.prePipe = .ok su) (hpv : v'.prePipe = .ok sv) :
    URL.eq u v = .error .typeError ↔ (u'.host = "" ∨ v'.host = "") := by
  by_cases h1 : u'.host = ""
  · have hg : u'.generalize = .error .typeError :=
      (generalize_error_iff hpu).mpr h1
    unfold URL.eq
    rw [hv, hu]
    simp [Bind.bind, Except.bind, hg, h1]
  · have hg := generalize_ok hpu h1
    by_cases h2 : v'.host = ""
    · have hg2 : v'.generalize = .error .typeError :=
        (generalize_error_iff hpv).mpr h2
      unfold URL.eq
      rw [hv, hu]
      simp [Bind.bind, Except.bind, hg, hg2, h2]
    · have hg2 := generalize_ok hpv h2
      unfold URL.eq
      rw [hv, hu]
      simp [Bind.bind, Except.bind, hg, hg2, pure, Except.pure, h1, h2]

/-- Witness for `c10_eq_error_iff`: comparing the relative URL `/p` to itself
raises the `TypeError`. -/
theorem c10_eq_error_iff_witness :
    URL.eq relPathURL relPathURL = .error .typeError :=
  (c10_eq_error_iff relPathURL relPathURL relPathURL relPathURL
      { relPathURL with path := "/p/" } { relPathURL with path := "/p/" }
      rfl rfl rfl rfl).mpr (Or.inl rfl)

end Urler
